import Mathlib

/-!
# SimpleElastix: the registration callable and the buffer import interface

A shallow embedding of

* `src/Code/Elastix/src/sitkSimpleElastix.hxx`
  (`SimpleElastix::DualExecuteInternal< TFixedImage, TMovingImage >`), and
* `src/Code/IO/include/sitkImportImageFilter.h`
  (the `ImportImageFilter` class interface and the procedural `ImportAs...` functions).

Conventions of the embedding

* C++ exceptions are values of `Except ExceptionObject`; because `DualExecuteInternal`
  mutates `*this` in place, it returns its outcome together with the state `*this` is
  left in, also when an exception leaves the function.
* `unsigned int` loop counters are natural numbers incremented modulo `2 ^ 32`; a loop
  is run with a step budget and yields `none` when the budget is used up.
* `double` values are the rationals they denote (only the literals `1.0` and `0.0` occur).
* The elastix library (`elastix::ElastixFilter`) is an external collaborator. The calls
  made on the filter object are recorded in an `ElastixFilter` record; what the library
  computes from them is a parameter (`ElastixLibrary`).
-/

namespace itk.simple

/-! ## Type descriptors and image values -/

/-- The scalar element kinds named in `sitkImportImageFilter.h`. -/
inductive ScalarKind
  | Int8 | UInt8 | Int16 | UInt16 | Int32 | UInt32 | Int64 | UInt64 | Float | Double
  deriving DecidableEq, Repr

/-- An element kind: a scalar kind or its multi-component (vector) variant. -/
inductive ElementKind
  | scalar (k : ScalarKind)
  | vector (k : ScalarKind)
  deriving DecidableEq, Repr

/-- The pair (element kind, dimension) that identifies one compiled image type. -/
structure TypeDescriptor where
  elementKind : ElementKind
  dimension : Nat
  deriving DecidableEq, Repr

/-- The ITK data object behind an image handle (what `GetITKBase()` points to): its
compiled type, its pixel buffer, and the pipeline object it is still the output of
(`none` when it is not connected to any). -/
structure ItkDataObject where
  descriptor : TypeDescriptor
  buffer : List Int
  source : Option Nat
  deriving DecidableEq, Repr

/-- The runtime-typed image handle `itk::simple::Image`; `Image.mk p` is the constructor
`Image( p )` that wraps an ITK image pointer. -/
structure Image where
  itkBase : ItkDataObject
  deriving DecidableEq, Repr

/-- The accessor `Image::GetITKBase()`. -/
def Image.GetITKBase (self : Image) : ItkDataObject := self.itkBase

/-- The type descriptor of an image handle (`describe` in the specification). -/
def Image.describe (self : Image) : TypeDescriptor := self.itkBase.descriptor

/-- Modelled from the spec: `Image::MakeUnique` (defined in `sitkImage.cxx`, not under
`src/`). The value is deep-copied so that its lifetime is fully decoupled from the
context that produced it: type and pixels are kept, the pipeline connection is gone. -/
def Image.MakeUnique (self : Image) : Image :=
  { itkBase := { self.itkBase with source := none } }

/-- The C++ exception value carried by a failure. -/
structure ExceptionObject where
  what : String
  deriving DecidableEq, Repr

/-- A parameter map: string keys with ordered sequences of string values
(`std::map< std::string, std::vector< std::string > >`, as a key-ordered association list). -/
abbrev ParameterMapType := List (String × List String)

/-- An ordered list of parameter maps (`ParameterMapVectorType`). -/
abbrev ParameterMapVectorType := List ParameterMapType

/-- The elastix `ParameterObject`: a holder of a parameter map vector. -/
structure ParameterObject where
  parameterMaps : ParameterMapVectorType
  deriving DecidableEq, Repr

/-- The call `ParameterObjectType::New()`. -/
def ParameterObject.New : ParameterObject := { parameterMaps := [] }

/-- The call `SetParameterMap( vector )`. -/
def ParameterObject.SetParameterMap (_self : ParameterObject) (v : ParameterMapVectorType) :
    ParameterObject :=
  { parameterMaps := v }

/-- The call `GetParameterMap()`. -/
def ParameterObject.GetParameterMap (self : ParameterObject) : ParameterMapVectorType :=
  self.parameterMaps

/-! ## The registration filter object -/

/-- The state of an `elastix::ElastixFilter< TFixedImage, TMovingImage >` object as far as
this code determines it: its two template arguments and everything handed to it. -/
structure ElastixFilter where
  fixedImageType : TypeDescriptor
  movingImageType : TypeDescriptor
  fixedImages : List ItkDataObject
  movingImages : List ItkDataObject
  fixedMasks : List ItkDataObject
  movingMasks : List ItkDataObject
  fixedPointSetFileName : String
  movingPointSetFileName : String
  outputDirectory : String
  logFileName : String
  logToFile : Bool
  logToConsole : Bool
  parameterObject : Option ParameterObject
  deriving DecidableEq, Repr

/-- The elastix library as seen from this code. `initialParameterObject` is the parameter
object a freshly constructed filter holds (`none` when it holds none); the two getters run
the registration on the filter as configured and may throw. -/
structure ElastixLibrary where
  initialParameterObject : Option ParameterObject
  GetOutput : ElastixFilter → Except ExceptionObject ItkDataObject
  GetTransformParameterObject : ElastixFilter → Except ExceptionObject ParameterObject

/-- The output of an `ElastixFilter< TFixedImage, TMovingImage >` is an image of the type
`TFixedImage`: whenever the library produces an output, it has the fixed image type of the
filter. -/
def ElastixLibrary.outputHasFixedImageType (lib : ElastixLibrary) : Prop :=
  ∀ f output, lib.GetOutput f = .ok output → output.descriptor = f.fixedImageType

/-- The call `ElastixFilterType::New()`: a fresh filter to which nothing has been added. -/
def ElastixFilter.New (lib : ElastixLibrary) (TFixedImage TMovingImage : TypeDescriptor) :
    ElastixFilter :=
  { fixedImageType := TFixedImage
    movingImageType := TMovingImage
    fixedImages := []
    movingImages := []
    fixedMasks := []
    movingMasks := []
    fixedPointSetFileName := ""
    movingPointSetFileName := ""
    outputDirectory := ""
    logFileName := ""
    logToFile := false
    logToConsole := false
    parameterObject := lib.initialParameterObject }

/-- The call `AddFixedImage( p )`: `p` becomes the last fixed image. -/
def ElastixFilter.AddFixedImage (self : ElastixFilter) (p : ItkDataObject) : ElastixFilter :=
  { self with fixedImages := self.fixedImages ++ [p] }

/-- The call `AddMovingImage( p )`. -/
def ElastixFilter.AddMovingImage (self : ElastixFilter) (p : ItkDataObject) : ElastixFilter :=
  { self with movingImages := self.movingImages ++ [p] }

/-- The call `AddFixedMask( p )`. -/
def ElastixFilter.AddFixedMask (self : ElastixFilter) (p : ItkDataObject) : ElastixFilter :=
  { self with fixedMasks := self.fixedMasks ++ [p] }

/-- The call `AddMovingMask( p )`. -/
def ElastixFilter.AddMovingMask (self : ElastixFilter) (p : ItkDataObject) : ElastixFilter :=
  { self with movingMasks := self.movingMasks ++ [p] }

/-- The call `SetFixedPointSetFileName( name )`. -/
def ElastixFilter.SetFixedPointSetFileName (self : ElastixFilter) (v : String) : ElastixFilter :=
  { self with fixedPointSetFileName := v }

/-- The call `SetMovingPointSetFileName( name )`. -/
def ElastixFilter.SetMovingPointSetFileName (self : ElastixFilter) (v : String) : ElastixFilter :=
  { self with movingPointSetFileName := v }

/-- The call `SetOutputDirectory( dir )`. -/
def ElastixFilter.SetOutputDirectory (self : ElastixFilter) (v : String) : ElastixFilter :=
  { self with outputDirectory := v }

/-- The call `SetLogFileName( name )`. -/
def ElastixFilter.SetLogFileName (self : ElastixFilter) (v : String) : ElastixFilter :=
  { self with logFileName := v }

/-- The call `SetLogToFile( flag )`. -/
def ElastixFilter.SetLogToFile (self : ElastixFilter) (v : Bool) : ElastixFilter :=
  { self with logToFile := v }

/-- The call `SetLogToConsole( flag )`. -/
def ElastixFilter.SetLogToConsole (self : ElastixFilter) (v : Bool) : ElastixFilter :=
  { self with logToConsole := v }

/-- The call `SetParameterObject( object )`. -/
def ElastixFilter.SetParameterObject (self : ElastixFilter) (v : ParameterObject) : ElastixFilter :=
  { self with parameterObject := some v }

/-! ## The SimpleElastix object -/

/-- The members of `SimpleElastix` that `DualExecuteInternal` reads or writes. -/
structure SimpleElastix where
  m_FixedImages : List Image
  m_MovingImages : List Image
  m_FixedMasks : List Image
  m_MovingMasks : List Image
  m_FixedPointSetFileName : String
  m_MovingPointSetFileName : String
  m_OutputDirectory : String
  m_LogFileName : String
  m_LogToFile : Bool
  m_LogToConsole : Bool
  m_ParameterMapVector : ParameterMapVectorType
  m_TransformParameterMapVector : ParameterMapVectorType
  m_ResultImage : Image
  deriving DecidableEq, Repr

/-- The exception an indexed accessor raises for an index past the end. -/
def indexOutOfRange : ExceptionObject := { what := "Index out of range" }

/-- Element `index` of a collection, or the out-of-range exception. -/
def imageAt (images : List Image) (index : Nat) : Except ExceptionObject Image :=
  match images[index]? with
  | some img => .ok img
  | none => .error indexOutOfRange

/-- Modelled from the spec: `SimpleElastix::GetFixedImage` (defined in
`sitkSimpleElastix.cxx`, not under `src/`), the accessor of element `index` of the fixed
image collection. -/
def SimpleElastix.GetFixedImage (self : SimpleElastix) (index : Nat) :
    Except ExceptionObject Image :=
  imageAt self.m_FixedImages index

/-- Modelled from the spec: `SimpleElastix::GetMovingImage` (not under `src/`), the
accessor of element `index` of the moving image collection. -/
def SimpleElastix.GetMovingImage (self : SimpleElastix) (index : Nat) :
    Except ExceptionObject Image :=
  imageAt self.m_MovingImages index

/-- Modelled from the spec: `SimpleElastix::GetFixedMask` (not under `src/`), the accessor
of element `index` of the fixed mask collection. -/
def SimpleElastix.GetFixedMask (self : SimpleElastix) (index : Nat) :
    Except ExceptionObject Image :=
  imageAt self.m_FixedMasks index

/-- Modelled from the spec: `SimpleElastix::GetMovingMask` (not under `src/`), the accessor
of element `index` of the moving mask collection. -/
def SimpleElastix.GetMovingMask (self : SimpleElastix) (index : Nat) :
    Except ExceptionObject Image :=
  imageAt self.m_MovingMasks index

/-- The getter `GetFixedPointSetFileName()`. -/
def SimpleElastix.GetFixedPointSetFileName (self : SimpleElastix) : String :=
  self.m_FixedPointSetFileName

/-- The getter `GetMovingPointSetFileName()`. -/
def SimpleElastix.GetMovingPointSetFileName (self : SimpleElastix) : String :=
  self.m_MovingPointSetFileName

/-- The getter `GetOutputDirectory()`. -/
def SimpleElastix.GetOutputDirectory (self : SimpleElastix) : String :=
  self.m_OutputDirectory

/-- The getter `GetLogFileName()`. -/
def SimpleElastix.GetLogFileName (self : SimpleElastix) : String :=
  self.m_LogFileName

/-- The getter `GetLogToFile()`. -/
def SimpleElastix.GetLogToFile (self : SimpleElastix) : Bool :=
  self.m_LogToFile

/-- The getter `GetLogToConsole()`. -/
def SimpleElastix.GetLogToConsole (self : SimpleElastix) : Bool :=
  self.m_LogToConsole

/-! ## `DualExecuteInternal` -/

/-- The loop `for( unsigned int i = 0; i < n; ++i ) body` started at counter value `i`:
the counter is a 32-bit unsigned integer, an exception thrown by the body leaves the loop,
and `none` is returned when the step budget runs out first. -/
def forLoop {σ : Type} (n : Nat) (body : Nat → σ → Except ExceptionObject σ) :
    Nat → Nat → σ → Option (Except ExceptionObject σ)
  | 0, _, _ => none
  | fuel + 1, i, st =>
    if i < n then
      match body i st with
      | .error e => some (.error e)
      | .ok st1 => forLoop n body fuel ((i + 1) % 2 ^ 32) st1
    else some (.ok st)

/-- Sequencing of two steps that may run out of budget or throw. -/
def andThen {α β : Type} (x : Option (Except ExceptionObject α))
    (k : α → Option (Except ExceptionObject β)) : Option (Except ExceptionObject β) :=
  match x with
  | none => none
  | some (.error e) => some (.error e)
  | some (.ok a) => k a

/-- Lines 16 to 51 of `sitkSimpleElastix.hxx`: the filter is created and given the four
collections, the file names, the logging settings and, when `m_ParameterMapVector` is not
empty, a new parameter object holding it. `static_cast< TFixedImage* >` is unchecked, so
the pointer returned by `GetITKBase()` is passed on as it is. -/
def SimpleElastix.DualExecuteInternal.setup (lib : ElastixLibrary)
    (TFixedImage TMovingImage : TypeDescriptor) (self : SimpleElastix) (fuel : Nat) :
    Option (Except ExceptionObject ElastixFilter) :=
  let elastixFilter := ElastixFilter.New lib TFixedImage TMovingImage
  andThen (forLoop self.m_FixedImages.length
    (fun i f => (self.GetFixedImage i).map fun img => f.AddFixedImage img.GetITKBase)
    fuel 0 elastixFilter) fun elastixFilter =>
  andThen (forLoop self.m_MovingImages.length
    (fun i f => (self.GetMovingImage i).map fun img => f.AddMovingImage img.GetITKBase)
    fuel 0 elastixFilter) fun elastixFilter =>
  andThen (forLoop self.m_FixedMasks.length
    (fun i f => (self.GetFixedMask i).map fun img => f.AddFixedMask img.GetITKBase)
    fuel 0 elastixFilter) fun elastixFilter =>
  andThen (forLoop self.m_MovingMasks.length
    (fun i f => (self.GetMovingMask i).map fun img => f.AddMovingMask img.GetITKBase)
    fuel 0 elastixFilter) fun elastixFilter =>
  let elastixFilter := elastixFilter.SetFixedPointSetFileName self.GetFixedPointSetFileName
  let elastixFilter := elastixFilter.SetMovingPointSetFileName self.GetMovingPointSetFileName
  let elastixFilter := elastixFilter.SetOutputDirectory self.GetOutputDirectory
  let elastixFilter := elastixFilter.SetLogFileName self.GetLogFileName
  let elastixFilter := elastixFilter.SetLogToFile self.GetLogToFile
  let elastixFilter := elastixFilter.SetLogToConsole self.GetLogToConsole
  let elastixFilter :=
    if self.m_ParameterMapVector.length > 0 then
      let parameterObject := ParameterObject.New
      let parameterObject := parameterObject.SetParameterMap self.m_ParameterMapVector
      elastixFilter.SetParameterObject parameterObject
    else elastixFilter
  some (.ok elastixFilter)

/-- Lines 53 to 61 of `sitkSimpleElastix.hxx`, run on the configured filter: the outcome
(the returned image or the exception that left the function) and the state of `*this`
afterwards. Each assignment to a member takes effect as soon as its right-hand side has
been evaluated. -/
def SimpleElastix.DualExecuteInternal.run (lib : ElastixLibrary) (self : SimpleElastix)
    (elastixFilter : ElastixFilter) : Except ExceptionObject Image × SimpleElastix :=
  match lib.GetOutput elastixFilter with
  | .error e => (.error e, self)
  | .ok output =>
    let self := { self with m_ResultImage := Image.mk output }
    match lib.GetTransformParameterObject elastixFilter with
    | .error e => (.error e, self)
    | .ok transformParameterObject =>
      let self :=
        { self with m_TransformParameterMapVector := transformParameterObject.GetParameterMap }
      let self := { self with m_ResultImage := self.m_ResultImage.MakeUnique }
      (.ok self.m_ResultImage, self)

/-- The member function template `SimpleElastix::DualExecuteInternal< TFixedImage,
TMovingImage >` (`sitkSimpleElastix.hxx`, lines 9 to 62). The result is `none` when a loop
does not finish within `fuel` steps; otherwise it is the outcome of the call paired with
the state the object is left in. -/
def SimpleElastix.DualExecuteInternal (lib : ElastixLibrary)
    (TFixedImage TMovingImage : TypeDescriptor) (self : SimpleElastix) (fuel : Nat) :
    Option (Except ExceptionObject Image × SimpleElastix) :=
  match SimpleElastix.DualExecuteInternal.setup lib TFixedImage TMovingImage self fuel with
  | none => none
  | some (.error e) => some (.error e, self)
  | some (.ok elastixFilter) => some (SimpleElastix.DualExecuteInternal.run lib self elastixFilter)

/-- Every collection is short enough for the `unsigned int` loop counters: each length is
a value the counter reaches before it wraps around. -/
abbrev SimpleElastix.countersFit (self : SimpleElastix) : Prop :=
  self.m_FixedImages.length < 2 ^ 32 ∧ self.m_MovingImages.length < 2 ^ 32 ∧
    self.m_FixedMasks.length < 2 ^ 32 ∧ self.m_MovingMasks.length < 2 ^ 32

/-- The length of the longest of the four collections. -/
def SimpleElastix.longest (self : SimpleElastix) : Nat :=
  max (max self.m_FixedImages.length self.m_MovingImages.length)
    (max self.m_FixedMasks.length self.m_MovingMasks.length)

/-! ## The dual dispatcher -/

/-- The named failures of a registration invocation; `algorithm e` is a failure `e` raised
inside the dispatched callable, carried unchanged. -/
inductive DispatchError
  | UnsupportedTypePair (fixed moving : TypeDescriptor)
  | IncompatibleDimension
  | HeterogeneousCollection
  | algorithm (e : ExceptionObject)
  deriving DecidableEq, Repr

/-- What the dual dispatcher does with the registry during one invocation. -/
inductive DispatchEvent
  | lookup (fixed moving : TypeDescriptor)
  | invoke (fixed moving : TypeDescriptor)
  deriving DecidableEq, Repr

/-- Modelled from the spec: the inputs of a registration invocation (section 6). The
fixed and the moving collection are non-empty, so each is given by its first image and
the remaining ones; the mask collections may be empty. -/
structure RegistrationInput where
  fixedImage : Image
  otherFixedImages : List Image
  movingImage : Image
  otherMovingImages : List Image
  fixedMasks : List Image
  movingMasks : List Image
  fixedPointSetFileName : String
  movingPointSetFileName : String
  outputDirectory : String
  logFileName : String
  logToFile : Bool
  logToConsole : Bool
  parameterMaps : ParameterMapVectorType
  deriving DecidableEq, Repr

/-- The fixed image collection of an invocation. -/
def RegistrationInput.fixedImages (input : RegistrationInput) : List Image :=
  input.fixedImage :: input.otherFixedImages

/-- The moving image collection of an invocation. -/
def RegistrationInput.movingImages (input : RegistrationInput) : List Image :=
  input.movingImage :: input.otherMovingImages

/-- Modelled from the spec: the Dispatch Registry for dual dispatch (the member function
factory is not under `src/`), a finite map from an ordered pair of type descriptors to
the callable bound to it; `none` is `NotFound`. -/
abbrev DispatchRegistry (ρ : Type) : Type :=
  TypeDescriptor × TypeDescriptor → Option (RegistrationInput → Except ExceptionObject ρ)

/-- Modelled from the spec: the Dual Dispatcher `invokePair` (section 4.4; in the
repository this is `SimpleElastix::Execute`, which is not under `src/`). The fixed and
moving type descriptors are those of the first fixed and first moving image. Every fixed
image and fixed mask must have the fixed descriptor and every moving image and moving mask
the moving descriptor, otherwise the call fails with `HeterogeneousCollection`; the two
dimensions must match, otherwise it fails with `IncompatibleDimension`; both checks come
before the registry lookup. On a hit the bound callable is run on the full input and its
failure, if any, is passed on; on a miss the call fails with `UnsupportedTypePair`. The
first component lists the registry events of the invocation in order. -/
def invokePair {ρ : Type} (registry : DispatchRegistry ρ) (input : RegistrationInput) :
    List DispatchEvent × Except DispatchError ρ :=
  let fixed := input.fixedImage.describe
  let moving := input.movingImage.describe
  if !((input.fixedImages ++ input.fixedMasks).all fun x => decide (x.describe = fixed)) ||
      !((input.movingImages ++ input.movingMasks).all fun x => decide (x.describe = moving)) then
    ([], .error .HeterogeneousCollection)
  else if fixed.dimension ≠ moving.dimension then
    ([], .error .IncompatibleDimension)
  else
    match registry (fixed, moving) with
    | none => ([.lookup fixed moving], .error (.UnsupportedTypePair fixed moving))
    | some callable =>
      match callable input with
      | .error e => ([.lookup fixed moving, .invoke fixed moving], .error (.algorithm e))
      | .ok result => ([.lookup fixed moving, .invoke fixed moving], .ok result)

/-- The elements of a collection all share one type descriptor. -/
def sharesOneDescriptor (images : List Image) : Prop :=
  ∃ d : TypeDescriptor, ∀ x ∈ images, x.describe = d

/-! ## The import interface of `sitkImportImageFilter.h` -/

/-- The procedural interfaces the class documentation of `ImportImageFilter` refers to
(lines 37 to 42), by element kind. -/
def documentedImportAs : List ScalarKind :=
  [.Int8, .UInt8, .Int16, .UInt16, .Int32, .UInt32, .Int64, .UInt64, .Float, .Double]

/-- The `SetBufferAs...` methods the class declares (lines 63 to 70), by element kind. -/
def declaredSetBufferAs : List ScalarKind :=
  [.Int8, .UInt8, .Int16, .UInt16, .Int32, .UInt32, .Float, .Double]

/-- The declaration of one procedural import function: the element kind of its buffer
and its default arguments. -/
structure ImportFunction where
  kind : ScalarKind
  defaultSpacing : List ℚ
  defaultOrigin : List ℚ
  defaultDirection : List ℚ
  defaultNumberOfComponents : Nat
  deriving DecidableEq

/-- The declaration of `ImportAsInt8` (lines 112 to 119). -/
def ImportAsInt8 : ImportFunction :=
  { kind := .Int8, defaultSpacing := List.replicate 3 1, defaultOrigin := List.replicate 3 0,
    defaultDirection := [], defaultNumberOfComponents := 1 }

/-- The declaration of `ImportAsUInt8` (lines 121 to 128). -/
def ImportAsUInt8 : ImportFunction :=
  { kind := .UInt8, defaultSpacing := List.replicate 3 1, defaultOrigin := List.replicate 3 0,
    defaultDirection := [], defaultNumberOfComponents := 1 }

/-- The declaration of `ImportAsInt16` (lines 130 to 137). -/
def ImportAsInt16 : ImportFunction :=
  { kind := .Int16, defaultSpacing := List.replicate 3 1, defaultOrigin := List.replicate 3 0,
    defaultDirection := [], defaultNumberOfComponents := 1 }

/-- The declaration of `ImportAsUInt16` (lines 139 to 146). -/
def ImportAsUInt16 : ImportFunction :=
  { kind := .UInt16, defaultSpacing := List.replicate 3 1, defaultOrigin := List.replicate 3 0,
    defaultDirection := [], defaultNumberOfComponents := 1 }

/-- The declaration of `ImportAsInt32` (lines 148 to 155). -/
def ImportAsInt32 : ImportFunction :=
  { kind := .Int32, defaultSpacing := List.replicate 3 1, defaultOrigin := List.replicate 3 0,
    defaultDirection := [], defaultNumberOfComponents := 1 }

/-- The declaration of `ImportAsUInt32` (lines 157 to 164). -/
def ImportAsUInt32 : ImportFunction :=
  { kind := .UInt32, defaultSpacing := List.replicate 3 1, defaultOrigin := List.replicate 3 0,
    defaultDirection := [], defaultNumberOfComponents := 1 }

/-- The declaration of `ImportAsFloat` (lines 166 to 173). -/
def ImportAsFloat : ImportFunction :=
  { kind := .Float, defaultSpacing := List.replicate 3 1, defaultOrigin := List.replicate 3 0,
    defaultDirection := [], defaultNumberOfComponents := 1 }

/-- The declaration of `ImportAsDouble` (lines 175 to 182). -/
def ImportAsDouble : ImportFunction :=
  { kind := .Double, defaultSpacing := List.replicate 3 1, defaultOrigin := List.replicate 3 0,
    defaultDirection := [], defaultNumberOfComponents := 1 }

/-- The procedural import functions the header declares (lines 112 to 182). -/
def declaredImportAs : List ImportFunction :=
  [ImportAsInt8, ImportAsUInt8, ImportAsInt16, ImportAsUInt16, ImportAsInt32, ImportAsUInt32,
    ImportAsFloat, ImportAsDouble]

/-- The argument lists with which a procedural import function can be called. The buffer
(`none` is the null pointer) and `size` are always given; the later parameters have
default arguments, so they can only be left out from the right. -/
inductive ImportCall
  | upToSize (buffer : Option (List Int)) (size : List Nat)
  | upToSpacing (buffer : Option (List Int)) (size : List Nat) (spacing : List ℚ)
  | upToOrigin (buffer : Option (List Int)) (size : List Nat) (spacing origin : List ℚ)
  | upToDirection (buffer : Option (List Int)) (size : List Nat)
      (spacing origin direction : List ℚ)
  | complete (buffer : Option (List Int)) (size : List Nat)
      (spacing origin direction : List ℚ) (numberOfComponents : Nat)

/-- The arguments a procedural import function is entered with. -/
structure ImportArguments where
  buffer : Option (List Int)
  size : List Nat
  spacing : List ℚ
  origin : List ℚ
  direction : List ℚ
  numberOfComponents : Nat
  deriving DecidableEq

/-- The arguments a call enters the function with: every parameter that is left out takes
the default of the declaration, and the `unsigned int` parameters (the entries of `size`
and `numberOfComponents`) hold their values modulo `2 ^ 32`. -/
def ImportFunction.arguments (f : ImportFunction) : ImportCall → ImportArguments
  | .upToSize buffer size =>
    { buffer := buffer, size := size.map (· % 2 ^ 32), spacing := f.defaultSpacing,
      origin := f.defaultOrigin, direction := f.defaultDirection,
      numberOfComponents := f.defaultNumberOfComponents }
  | .upToSpacing buffer size spacing =>
    { buffer := buffer, size := size.map (· % 2 ^ 32), spacing := spacing,
      origin := f.defaultOrigin, direction := f.defaultDirection,
      numberOfComponents := f.defaultNumberOfComponents }
  | .upToOrigin buffer size spacing origin =>
    { buffer := buffer, size := size.map (· % 2 ^ 32), spacing := spacing,
      origin := origin, direction := f.defaultDirection,
      numberOfComponents := f.defaultNumberOfComponents }
  | .upToDirection buffer size spacing origin direction =>
    { buffer := buffer, size := size.map (· % 2 ^ 32), spacing := spacing,
      origin := origin, direction := direction,
      numberOfComponents := f.defaultNumberOfComponents }
  | .complete buffer size spacing origin direction numberOfComponents =>
    { buffer := buffer, size := size.map (· % 2 ^ 32), spacing := spacing,
      origin := origin, direction := direction,
      numberOfComponents := numberOfComponents % 2 ^ 32 }

/-- The named failures of an image construction from a raw buffer. -/
inductive ImportError
  | InvalidConstructionArguments
  | UnsupportedType (elementKind : ElementKind) (dimension : Nat)
  deriving DecidableEq, Repr

/-- The image an import constructs: its type descriptor and its geometry, with one
spacing and one origin entry per axis, and the pixels of the buffer. -/
structure ImportedImage where
  descriptor : TypeDescriptor
  size : List Nat
  spacing : List ℚ
  origin : List ℚ
  direction : List ℚ
  pixels : List Int
  deriving DecidableEq

/-- The identity cosine matrix of a `d`-axis image, flattened row by row. -/
def identityDirection (d : Nat) : List ℚ :=
  (List.range (d * d)).map fun i => if i / d = i % d then 1 else 0

/-- Modelled from the spec: the image construction from a raw buffer (section 6), which in
the repository is `ImportImageFilter::Execute` with `ExecuteInternal` in
`sitkImportImageFilter.cxx`, not under `src/`. The construction is rejected with
`InvalidConstructionArguments` for a null buffer, for a `size` of zero length or with an
entry that is not positive, and for a malformed component count, spacing, origin or
direction. The dimension is the length of `size`; the element kind is the declared kind,
in its vector variant when there is more than one component per pixel. The class composes
a 2D or a 3D image (class documentation, line 30): any other dimension has no compiled
variant and is an `UnsupportedType`. The image has one spacing and one origin entry per
axis, read from the front of the arguments, which are malformed when they have fewer
entries than there are axes; an empty direction stands for the identity. -/
def importImage (kind : ScalarKind) (a : ImportArguments) : Except ImportError ImportedImage :=
  match a.buffer with
  | none => .error .InvalidConstructionArguments
  | some pixels =>
    if a.size = [] ∨ 0 ∈ a.size then .error .InvalidConstructionArguments
    else if a.numberOfComponents = 0 then .error .InvalidConstructionArguments
    else if a.size.length ≠ 2 ∧ a.size.length ≠ 3 then
      .error (.UnsupportedType
        (if a.numberOfComponents = 1 then .scalar kind else .vector kind) a.size.length)
    else if a.spacing.length < a.size.length ∨ a.origin.length < a.size.length then
      .error .InvalidConstructionArguments
    else if a.direction ≠ [] ∧ a.direction.length ≠ a.size.length * a.size.length then
      .error .InvalidConstructionArguments
    else
      .ok
        { descriptor :=
            { elementKind := if a.numberOfComponents = 1 then .scalar kind else .vector kind
              dimension := a.size.length }
          size := a.size
          spacing := a.spacing.take a.size.length
          origin := a.origin.take a.size.length
          direction :=
            if a.direction = [] then identityDirection a.size.length else a.direction
          pixels := pixels }

/-- Modelled from the spec: the body of a procedural import function (defined in
`sitkImportImageFilter.cxx`, not under `src/`): the image is constructed from the buffer
of the declared element kind and the arguments the call enters with. -/
def ImportFunction.invoke (f : ImportFunction) (call : ImportCall) :
    Except ImportError ImportedImage :=
  importImage f.kind (f.arguments call)

/-- The filter configuration that lines 16 to 51 arrive at, written out in closed form
(`setup_eq` proves that `DualExecuteInternal.setup` computes it). -/
def SimpleElastix.configuredFilter (lib : ElastixLibrary)
    (TFixedImage TMovingImage : TypeDescriptor) (self : SimpleElastix) : ElastixFilter :=
  { fixedImageType := TFixedImage
    movingImageType := TMovingImage
    fixedImages := self.m_FixedImages.map Image.GetITKBase
    movingImages := self.m_MovingImages.map Image.GetITKBase
    fixedMasks := self.m_FixedMasks.map Image.GetITKBase
    movingMasks := self.m_MovingMasks.map Image.GetITKBase
    fixedPointSetFileName := self.m_FixedPointSetFileName
    movingPointSetFileName := self.m_MovingPointSetFileName
    outputDirectory := self.m_OutputDirectory
    logFileName := self.m_LogFileName
    logToFile := self.m_LogToFile
    logToConsole := self.m_LogToConsole
    parameterObject :=
      if self.m_ParameterMapVector.length > 0 then
        some { parameterMaps := self.m_ParameterMapVector }
      else lib.initialParameterObject }

/-! ## Concrete inputs used to evaluate the definitions -/

/-- The type descriptor (UInt8, 2). -/
def uint8_2D : TypeDescriptor := { elementKind := .scalar .UInt8, dimension := 2 }

/-- The type descriptor (Float32, 2). -/
def float_2D : TypeDescriptor := { elementKind := .scalar .Float, dimension := 2 }

/-- The type descriptor (UInt8, 3). -/
def uint8_3D : TypeDescriptor := { elementKind := .scalar .UInt8, dimension := 3 }

/-- A two-dimensional 8-bit image that is not connected to any pipeline. -/
def sampleImage : Image :=
  { itkBase := { descriptor := uint8_2D, buffer := [7, 7, 7, 7], source := none } }

/-- A two-dimensional 32-bit float image. -/
def floatImage : Image :=
  { itkBase := { descriptor := float_2D, buffer := [0, 0, 0, 0], source := none } }

/-- A three-dimensional 8-bit image. -/
def volumeImage : Image :=
  { itkBase := { descriptor := uint8_3D, buffer := [1, 1, 1, 1, 1, 1, 1, 1], source := none } }

/-- The result image an object holds from an earlier, finished registration. -/
def earlierResult : Image :=
  { itkBase := { descriptor := uint8_2D, buffer := [3, 3, 3, 3], source := none } }

/-- A buffer of sixteen 8-bit pixels, for a size of `[4, 4]`. -/
def sampleBuffer : List Int := List.replicate 16 0

/-- A one-entry parameter map. -/
def translationMap : ParameterMapType := [("Transform", ["TranslationTransform"])]

/-- An object with one fixed image, one identical moving image, no masks and an empty
parameter map vector, which still holds the results of an earlier registration. -/
def sampleState : SimpleElastix :=
  { m_FixedImages := [sampleImage]
    m_MovingImages := [sampleImage]
    m_FixedMasks := []
    m_MovingMasks := []
    m_FixedPointSetFileName := ""
    m_MovingPointSetFileName := ""
    m_OutputDirectory := "out"
    m_LogFileName := "elastix.log"
    m_LogToFile := false
    m_LogToConsole := true
    m_ParameterMapVector := []
    m_TransformParameterMapVector := [translationMap]
    m_ResultImage := earlierResult }

/-- The same object with a one-stage parameter map vector. -/
def configuredState : SimpleElastix :=
  { sampleState with m_ParameterMapVector := [translationMap] }

/-- The output data object of a filter run on `sampleState`: the resampled fixed image,
still connected to the filter (pipeline object 1) that produced it. -/
def connectedOutput : ItkDataObject :=
  { descriptor := uint8_2D, buffer := [7, 7, 7, 7], source := some 1 }

/-- The exception of a registration that fails. -/
def registrationFailure : ExceptionObject := { what := "registration failed" }

/-- A library whose fresh filter holds a one-stage default parameter object, whose output
is the first fixed image resampled into an image of the fixed image type of the filter,
and whose transform parameter object has one map per stage of the parameter object the
filter runs with. -/
def stagewiseLibrary : ElastixLibrary :=
  { initialParameterObject := some { parameterMaps := [translationMap] }
    GetOutput := fun f =>
      match f.fixedImages with
      | [] => .error registrationFailure
      | x :: _ => .ok { descriptor := f.fixedImageType, buffer := x.buffer, source := some 1 }
    GetTransformParameterObject := fun f =>
      match f.parameterObject with
      | none => .error registrationFailure
      | some p =>
        .ok { parameterMaps := p.parameterMaps.map fun m => m ++ [("TransformParameters", ["0", "0"])] } }

/-- A library like `stagewiseLibrary` whose fresh filter holds no parameter object. -/
def bareLibrary : ElastixLibrary :=
  { stagewiseLibrary with initialParameterObject := none }

/-- A library whose registration fails while the output is produced. -/
def failingLibrary : ElastixLibrary :=
  { stagewiseLibrary with GetOutput := fun _ => .error registrationFailure }

/-- A library whose output is produced and whose transform parameter object then fails. -/
def lateFailingLibrary : ElastixLibrary :=
  { stagewiseLibrary with GetTransformParameterObject := fun _ => .error registrationFailure }

/-- A registry that binds a callable to every pair of descriptors, whatever their
dimensions; the callable hands back the first fixed image. -/
def permissiveRegistry : DispatchRegistry Image :=
  fun _ => some fun input => .ok input.fixedImage

/-- A registration invocation of one fixed and one moving image without masks. -/
def pairInput (fixed moving : Image) : RegistrationInput :=
  { fixedImage := fixed
    otherFixedImages := []
    movingImage := moving
    otherMovingImages := []
    fixedMasks := []
    movingMasks := []
    fixedPointSetFileName := ""
    movingPointSetFileName := ""
    outputDirectory := "out"
    logFileName := "elastix.log"
    logToFile := false
    logToConsole := true
    parameterMaps := [translationMap] }

/-- The invocation of the heterogeneous collection scenario: a fixed collection of one
(UInt8, 2) image and one (Float32, 2) image. -/
def mixedInput : RegistrationInput :=
  { pairInput sampleImage sampleImage with otherFixedImages := [floatImage] }

/-! ## Auxiliary facts about the loops -/

/-- Indexing a collection below its length succeeds. -/
theorem imageAt_of_lt (images : List Image) (i : Nat) (h : i < images.length) :
    imageAt images i = .ok (images.get ⟨i, h⟩) := by
  unfold imageAt
  rw [List.getElem?_eq_getElem h]
  rfl

/-- A collection loop that starts at counter `i` visits the elements from position `i` on,
in order, when the collection is shorter than `2 ^ 32` and the budget covers the rest. -/
theorem forLoop_collect (images : List Image)
    (add : ElastixFilter → ItkDataObject → ElastixFilter) (hn : images.length < 2 ^ 32) :
    ∀ (fuel i : Nat) (f : ElastixFilter), i ≤ images.length → images.length - i < fuel →
      forLoop images.length
          (fun j g => (imageAt images j).map fun img => add g img.GetITKBase) fuel i f
        = some (.ok ((images.drop i).foldl (fun g img => add g img.GetITKBase) f)) := by
  intro fuel
  induction fuel with
  | zero => intro i f _ h; omega
  | succ fuel ih =>
    intro i f hi hfuel
    unfold forLoop
    by_cases hlt : i < images.length
    · have hmod : (i + 1) % 2 ^ 32 = i + 1 := Nat.mod_eq_of_lt (by omega)
      simp only [hlt, if_true, imageAt_of_lt images i hlt, Except.map, hmod]
      rw [List.drop_eq_getElem_cons hlt, List.foldl_cons]
      exact ih (i + 1) _ (by omega) (by omega)
    · have hieq : i = images.length := by omega
      subst hieq
      simp

/-- Adding the images of a list one after the other appends them to the fixed images. -/
theorem foldl_AddFixedImage (l : List Image) (f : ElastixFilter) :
    l.foldl (fun g img => g.AddFixedImage img.GetITKBase) f
      = { f with fixedImages := f.fixedImages ++ l.map Image.GetITKBase } := by
  induction l generalizing f with
  | nil => simp
  | cons x xs ih =>
    rw [List.foldl_cons, ih]
    simp [ElastixFilter.AddFixedImage]

/-- Adding the images of a list one after the other appends them to the moving images. -/
theorem foldl_AddMovingImage (l : List Image) (f : ElastixFilter) :
    l.foldl (fun g img => g.AddMovingImage img.GetITKBase) f
      = { f with movingImages := f.movingImages ++ l.map Image.GetITKBase } := by
  induction l generalizing f with
  | nil => simp
  | cons x xs ih =>
    rw [List.foldl_cons, ih]
    simp [ElastixFilter.AddMovingImage]

/-- Adding the images of a list one after the other appends them to the fixed masks. -/
theorem foldl_AddFixedMask (l : List Image) (f : ElastixFilter) :
    l.foldl (fun g img => g.AddFixedMask img.GetITKBase) f
      = { f with fixedMasks := f.fixedMasks ++ l.map Image.GetITKBase } := by
  induction l generalizing f with
  | nil => simp
  | cons x xs ih =>
    rw [List.foldl_cons, ih]
    simp [ElastixFilter.AddFixedMask]

/-- Adding the images of a list one after the other appends them to the moving masks. -/
theorem foldl_AddMovingMask (l : List Image) (f : ElastixFilter) :
    l.foldl (fun g img => g.AddMovingMask img.GetITKBase) f
      = { f with movingMasks := f.movingMasks ++ l.map Image.GetITKBase } := by
  induction l generalizing f with
  | nil => simp
  | cons x xs ih =>
    rw [List.foldl_cons, ih]
    simp [ElastixFilter.AddMovingMask]

/-- With collections shorter than `2 ^ 32` and a budget above the longest of them, lines 16
to 51 finish without an exception and leave the filter in the closed-form configuration. -/
theorem setup_eq (lib : ElastixLibrary) (TFixedImage TMovingImage : TypeDescriptor)
    (self : SimpleElastix) (fuel : Nat) (hfit : self.countersFit)
    (hfuel : self.longest < fuel) :
    SimpleElastix.DualExecuteInternal.setup lib TFixedImage TMovingImage self fuel
      = some (.ok (self.configuredFilter lib TFixedImage TMovingImage)) := by
  obtain ⟨h1, h2, h3, h4⟩ := hfit
  simp only [SimpleElastix.longest, max_lt_iff] at hfuel
  obtain ⟨⟨g1, g2⟩, g3, g4⟩ := hfuel
  unfold SimpleElastix.DualExecuteInternal.setup
  simp only [SimpleElastix.GetFixedImage, SimpleElastix.GetMovingImage,
    SimpleElastix.GetFixedMask, SimpleElastix.GetMovingMask]
  rw [forLoop_collect self.m_FixedImages ElastixFilter.AddFixedImage h1 fuel 0 _
    (Nat.zero_le _) (by omega)]
  simp only [andThen]
  rw [forLoop_collect self.m_MovingImages ElastixFilter.AddMovingImage h2 fuel 0 _
    (Nat.zero_le _) (by omega)]
  simp only [andThen]
  rw [forLoop_collect self.m_FixedMasks ElastixFilter.AddFixedMask h3 fuel 0 _
    (Nat.zero_le _) (by omega)]
  simp only [andThen]
  rw [forLoop_collect self.m_MovingMasks ElastixFilter.AddMovingMask h4 fuel 0 _
    (Nat.zero_le _) (by omega)]
  simp only [andThen, List.drop_zero, foldl_AddFixedImage, foldl_AddMovingImage,
    foldl_AddFixedMask, foldl_AddMovingMask]
  by_cases hp : self.m_ParameterMapVector.length > 0 <;>
    simp [hp, SimpleElastix.configuredFilter, ElastixFilter.New,
      ElastixFilter.SetFixedPointSetFileName, ElastixFilter.SetMovingPointSetFileName,
      ElastixFilter.SetOutputDirectory, ElastixFilter.SetLogFileName,
      ElastixFilter.SetLogToFile, ElastixFilter.SetLogToConsole,
      ElastixFilter.SetParameterObject, ParameterObject.SetParameterMap,
      SimpleElastix.GetFixedPointSetFileName, SimpleElastix.GetMovingPointSetFileName,
      SimpleElastix.GetOutputDirectory, SimpleElastix.GetLogFileName,
      SimpleElastix.GetLogToFile, SimpleElastix.GetLogToConsole]

/-- A successful index access yields the element at that position. -/
theorem imageAt_ok (images : List Image) (i : Nat) (img : Image)
    (h : imageAt images i = .ok img) : images[i]? = some img := by
  unfold imageAt at h
  cases hi : images[i]? with
  | none => rw [hi] at h; cases h
  | some x => rw [hi] at h; cases h; rfl

/-- Once the filter is configured, the call is the evaluation of lines 53 to 61 on it. -/
theorem DualExecuteInternal_eq_run (lib : ElastixLibrary)
    (TFixedImage TMovingImage : TypeDescriptor) (self : SimpleElastix) (fuel : Nat)
    (hfit : self.countersFit) (hfuel : self.longest < fuel) :
    SimpleElastix.DualExecuteInternal lib TFixedImage TMovingImage self fuel
      = some (SimpleElastix.DualExecuteInternal.run lib self
          (self.configuredFilter lib TFixedImage TMovingImage)) := by
  unfold SimpleElastix.DualExecuteInternal
  rw [setup_eq lib TFixedImage TMovingImage self fuel hfit hfuel]

/-! ## The claims about `DualExecuteInternal` -/

/-- C1. Whenever the registration filter succeeds (both its output and its transform
parameter object are obtained), `DualExecuteInternal` returns the image wrapped around the
filter output after `MakeUnique` has been applied to it, that same image is what it leaves
in `m_ResultImage`, and the returned image is not connected to any pipeline object; it
differs from the wrapped output whenever that one is still connected to the filter. -/
theorem C1_returns_made_unique_result (lib : ElastixLibrary)
    (TFixedImage TMovingImage : TypeDescriptor) (self : SimpleElastix) (fuel : Nat)
    (hfit : self.countersFit) (hfuel : self.longest < fuel) :
    ∃ f, SimpleElastix.DualExecuteInternal.setup lib TFixedImage TMovingImage self fuel
          = some (.ok f) ∧
      ∀ output tp, lib.GetOutput f = .ok output →
        lib.GetTransformParameterObject f = .ok tp →
        ∃ result final,
          SimpleElastix.DualExecuteInternal lib TFixedImage TMovingImage self fuel
            = some (.ok result, final) ∧
          result = (Image.mk output).MakeUnique ∧
          final.m_ResultImage = result ∧
          result.itkBase.source = none ∧
          (output.source ≠ none → result ≠ Image.mk output) := by
  refine ⟨_, setup_eq lib TFixedImage TMovingImage self fuel hfit hfuel, ?_⟩
  intro output tp hout htp
  refine ⟨(Image.mk output).MakeUnique,
    { self with
      m_ResultImage := (Image.mk output).MakeUnique
      m_TransformParameterMapVector := tp.GetParameterMap }, ?_, rfl, rfl, rfl, ?_⟩
  · rw [DualExecuteInternal_eq_run lib TFixedImage TMovingImage self fuel hfit hfuel]
    simp [SimpleElastix.DualExecuteInternal.run, hout, htp]
  · intro hsrc heq
    apply hsrc
    have := congrArg (fun img : Image => img.itkBase.source) heq
    simpa [Image.MakeUnique] using this.symm

/-- C1, evaluated: on `sampleState` the stagewise library succeeds and the call returns the
made-unique copy of the connected filter output and stores it in `m_ResultImage`. -/
theorem C1_returns_made_unique_result_witness :
    sampleState.countersFit ∧ sampleState.longest < 2 ∧
    ∃ final,
      SimpleElastix.DualExecuteInternal stagewiseLibrary uint8_2D uint8_2D sampleState 2
        = some (.ok (Image.mk connectedOutput).MakeUnique, final) ∧
      final.m_ResultImage = (Image.mk connectedOutput).MakeUnique := by
  refine ⟨by decide, by decide, ?_⟩
  obtain ⟨f, hf, h⟩ := C1_returns_made_unique_result stagewiseLibrary uint8_2D uint8_2D
    sampleState 2 (by decide) (by decide)
  have hf0 : SimpleElastix.DualExecuteInternal.setup stagewiseLibrary uint8_2D uint8_2D
      sampleState 2 = some (.ok (sampleState.configuredFilter stagewiseLibrary uint8_2D
        uint8_2D)) := rfl
  rw [hf0] at hf
  cases hf
  obtain ⟨result, final, hrun, hres, hfinal, _, _⟩ :=
    h connectedOutput { parameterMaps := [translationMap ++ [("TransformParameters", ["0", "0"])]] }
      rfl rfl
  subst hres
  exact ⟨final, hrun, hfinal⟩

/-- C2. `DualExecuteInternal` hands the filter the full collections: the filter on which
the registration is run has as fixed images exactly the ITK images of `m_FixedImages`, in
order, and likewise for the moving images, the fixed masks and the moving masks; element
`i` of each is the image the indexed accessor returns for `i`. The collections are assumed
shorter than `2 ^ 32`, the range of the `unsigned int` loop counter. -/
theorem C2_full_collections_handed_over (lib : ElastixLibrary)
    (TFixedImage TMovingImage : TypeDescriptor) (self : SimpleElastix) (fuel : Nat)
    (hfit : self.countersFit) (hfuel : self.longest < fuel) :
    ∃ f, SimpleElastix.DualExecuteInternal.setup lib TFixedImage TMovingImage self fuel
          = some (.ok f) ∧
      SimpleElastix.DualExecuteInternal lib TFixedImage TMovingImage self fuel
          = some (SimpleElastix.DualExecuteInternal.run lib self f) ∧
      f.fixedImages = self.m_FixedImages.map Image.GetITKBase ∧
      f.movingImages = self.m_MovingImages.map Image.GetITKBase ∧
      f.fixedMasks = self.m_FixedMasks.map Image.GetITKBase ∧
      f.movingMasks = self.m_MovingMasks.map Image.GetITKBase ∧
      (∀ i img, self.GetFixedImage i = .ok img → f.fixedImages[i]? = some img.GetITKBase) ∧
      (∀ i img, self.GetMovingImage i = .ok img → f.movingImages[i]? = some img.GetITKBase) ∧
      (∀ i img, self.GetFixedMask i = .ok img → f.fixedMasks[i]? = some img.GetITKBase) ∧
      (∀ i img, self.GetMovingMask i = .ok img → f.movingMasks[i]? = some img.GetITKBase) := by
  refine ⟨_, setup_eq lib TFixedImage TMovingImage self fuel hfit hfuel,
    DualExecuteInternal_eq_run lib TFixedImage TMovingImage self fuel hfit hfuel,
    rfl, rfl, rfl, rfl, ?_, ?_, ?_, ?_⟩ <;>
  · intro i img h
    simp [SimpleElastix.configuredFilter, List.getElem?_map, imageAt_ok _ i img h]

/-- C2, evaluated on `sampleState`: one fixed and one moving image, no masks. -/
theorem C2_full_collections_handed_over_witness :
    sampleState.countersFit ∧ sampleState.longest < 2 ∧
    ∃ f, SimpleElastix.DualExecuteInternal.setup stagewiseLibrary uint8_2D uint8_2D
          sampleState 2 = some (.ok f) ∧
      f.fixedImages = [sampleImage.GetITKBase] ∧ f.movingImages = [sampleImage.GetITKBase] ∧
      f.fixedMasks = [] ∧ f.movingMasks = [] := by
  refine ⟨by decide, by decide, ?_⟩
  obtain ⟨f, hf, _, h1, h2, h3, h4, _⟩ := C2_full_collections_handed_over stagewiseLibrary
    uint8_2D uint8_2D sampleState 2 (by decide) (by decide)
  exact ⟨f, hf, h1, h2, h3, h4⟩

/-- C3, as stated, fails for the empty parameter map vector: `sampleState` holds the empty
list, no parameter object is set, and the filter runs with the parameter object it was
constructed with. For a library whose fresh filter holds a one-stage default that is a
one-element list, not the empty one; for a library whose fresh filter holds none, the
filter has no parameter object at all. -/
theorem C3_counterexample :
    sampleState.m_ParameterMapVector = [] ∧
    (∃ f, SimpleElastix.DualExecuteInternal.setup stagewiseLibrary uint8_2D uint8_2D
          sampleState 2 = some (.ok f) ∧
      f.parameterObject = some { parameterMaps := [translationMap] } ∧
      f.parameterObject ≠ some { parameterMaps := sampleState.m_ParameterMapVector }) ∧
    (∃ f, SimpleElastix.DualExecuteInternal.setup bareLibrary uint8_2D uint8_2D
          sampleState 2 = some (.ok f) ∧
      f.parameterObject = none ∧
      f.parameterObject ≠ some { parameterMaps := sampleState.m_ParameterMapVector }) := by
  refine ⟨rfl, ⟨_, rfl, rfl, by decide⟩, ⟨_, rfl, rfl, by decide⟩⟩

/-- C3, amended. A non-empty `m_ParameterMapVector` is threaded through unmodified: the
filter on which the registration is run holds a parameter object whose maps are exactly
that list. For the empty list no parameter object is set, and the filter keeps the
parameter object it was constructed with. -/
theorem C3_parameter_maps_threaded_when_nonempty (lib : ElastixLibrary)
    (TFixedImage TMovingImage : TypeDescriptor) (self : SimpleElastix) (fuel : Nat)
    (hfit : self.countersFit) (hfuel : self.longest < fuel) :
    ∃ f, SimpleElastix.DualExecuteInternal.setup lib TFixedImage TMovingImage self fuel
          = some (.ok f) ∧
      SimpleElastix.DualExecuteInternal lib TFixedImage TMovingImage self fuel
          = some (SimpleElastix.DualExecuteInternal.run lib self f) ∧
      (self.m_ParameterMapVector ≠ [] →
        f.parameterObject = some { parameterMaps := self.m_ParameterMapVector }) ∧
      (self.m_ParameterMapVector = [] → f.parameterObject = lib.initialParameterObject) := by
  refine ⟨_, setup_eq lib TFixedImage TMovingImage self fuel hfit hfuel,
    DualExecuteInternal_eq_run lib TFixedImage TMovingImage self fuel hfit hfuel, ?_, ?_⟩
  · intro hne
    have hpos : self.m_ParameterMapVector.length > 0 := List.length_pos.mpr hne
    simp [SimpleElastix.configuredFilter, hpos]
  · intro hnil
    simp [SimpleElastix.configuredFilter, hnil]

/-- C3 amended, evaluated on `configuredState`, whose parameter map vector has one map. -/
theorem C3_parameter_maps_threaded_when_nonempty_witness :
    configuredState.countersFit ∧ configuredState.longest < 2 ∧
    configuredState.m_ParameterMapVector ≠ [] ∧
    ∃ f, SimpleElastix.DualExecuteInternal.setup bareLibrary uint8_2D uint8_2D
          configuredState 2 = some (.ok f) ∧
      f.parameterObject = some { parameterMaps := [translationMap] } := by
  refine ⟨by decide, by decide, by decide, ?_⟩
  obtain ⟨f, hf, _, h, _⟩ := C3_parameter_maps_threaded_when_nonempty bareLibrary
    uint8_2D uint8_2D configuredState 2 (by decide) (by decide)
  exact ⟨f, hf, h (by decide)⟩

/-- C7, as stated, fails: with one fixed image, one identical moving image and an empty
parameter map vector, the registration run by the stagewise library succeeds, the result
has the type descriptor of the inputs, and `m_TransformParameterMapVector` holds one
transform parameter map (that of the default stage of the filter), so it is not empty. -/
theorem C7_counterexample :
    sampleState.m_FixedImages = [sampleImage] ∧ sampleState.m_MovingImages = [sampleImage] ∧
    sampleState.m_ParameterMapVector = [] ∧
    ∃ result final,
      SimpleElastix.DualExecuteInternal stagewiseLibrary uint8_2D uint8_2D sampleState 2
        = some (.ok result, final) ∧
      result.describe = sampleImage.describe ∧
      final.m_TransformParameterMapVector.length = 1 ∧
      final.m_TransformParameterMapVector ≠ [] := by
  refine ⟨rfl, rfl, rfl, _, _, rfl, rfl, rfl, by decide⟩

/-- The stagewise library produces outputs of the fixed image type of the filter. -/
theorem stagewiseLibrary_outputHasFixedImageType :
    stagewiseLibrary.outputHasFixedImageType := by
  intro f output h
  simp only [stagewiseLibrary] at h
  split at h
  · cases h
  · cases h
    rfl

/-- C7, amended. When registration is run with one fixed image, one identical moving image
and an empty parameter map vector, the result image has the same type descriptor as the
inputs, and `m_TransformParameterMapVector` holds the parameter maps of the transform
parameter object the filter produces from the parameter object it was constructed with:
the empty list is not handed to the filter. The registration is run by
`DualExecuteInternal` instantiated at the type descriptor of the input image, with a
filter whose output has the fixed image type and which succeeds. -/
theorem C7_empty_configuration_uses_filter_default (lib : ElastixLibrary)
    (TFixedImage TMovingImage : TypeDescriptor) (self : SimpleElastix) (fuel : Nat)
    (image : Image) (hfit : self.countersFit) (hfuel : self.longest < fuel)
    (hfixed : self.m_FixedImages = [image]) (hmoving : self.m_MovingImages = [image])
    (hempty : self.m_ParameterMapVector = [])
    (hinstance : TFixedImage = image.describe ∧ TMovingImage = image.describe)
    (htyped : lib.outputHasFixedImageType) :
    ∃ f, SimpleElastix.DualExecuteInternal.setup lib TFixedImage TMovingImage self fuel
          = some (.ok f) ∧
      f.fixedImages = [image.GetITKBase] ∧ f.movingImages = [image.GetITKBase] ∧
      f.parameterObject = lib.initialParameterObject ∧
      ∀ output tp, lib.GetOutput f = .ok output →
        lib.GetTransformParameterObject f = .ok tp →
        ∃ result final,
          SimpleElastix.DualExecuteInternal lib TFixedImage TMovingImage self fuel
            = some (.ok result, final) ∧
          result.describe = image.describe ∧
          final.m_ResultImage = result ∧
          final.m_TransformParameterMapVector = tp.GetParameterMap := by
  refine ⟨_, setup_eq lib TFixedImage TMovingImage self fuel hfit hfuel, ?_, ?_, ?_, ?_⟩
  · simp [SimpleElastix.configuredFilter, hfixed]
  · simp [SimpleElastix.configuredFilter, hmoving]
  · simp [SimpleElastix.configuredFilter, hempty]
  · intro output tp hout htp
    have hdesc : output.descriptor = image.describe := by
      rw [htyped _ output hout]
      exact hinstance.1
    refine ⟨(Image.mk output).MakeUnique,
      { self with
        m_ResultImage := (Image.mk output).MakeUnique
        m_TransformParameterMapVector := tp.GetParameterMap }, ?_, hdesc, rfl, rfl⟩
    rw [DualExecuteInternal_eq_run lib TFixedImage TMovingImage self fuel hfit hfuel]
    simp [SimpleElastix.DualExecuteInternal.run, hout, htp]

/-- C7 amended, evaluated on `sampleState` with the stagewise library: the registration
succeeds, the result has the type descriptor of the input image, and the stored transform
parameter collection is the one map the filter produced from its default stage. -/
theorem C7_empty_configuration_uses_filter_default_witness :
    sampleState.countersFit ∧ sampleState.longest < 2 ∧
    sampleState.m_FixedImages = [sampleImage] ∧ sampleState.m_MovingImages = [sampleImage] ∧
    sampleState.m_ParameterMapVector = [] ∧
    (uint8_2D = sampleImage.describe ∧ uint8_2D = sampleImage.describe) ∧
    stagewiseLibrary.outputHasFixedImageType ∧
    ∃ result final,
      SimpleElastix.DualExecuteInternal stagewiseLibrary uint8_2D uint8_2D sampleState 2
        = some (.ok result, final) ∧
      result.describe = sampleImage.describe ∧
      final.m_TransformParameterMapVector
        = [translationMap ++ [("TransformParameters", ["0", "0"])]] := by
  refine ⟨by decide, by decide, rfl, rfl, rfl, ⟨rfl, rfl⟩,
    stagewiseLibrary_outputHasFixedImageType, ?_⟩
  obtain ⟨f, hf, _, _, _, h⟩ := C7_empty_configuration_uses_filter_default stagewiseLibrary
    uint8_2D uint8_2D sampleState 2 sampleImage (by decide) (by decide) rfl rfl rfl
    ⟨rfl, rfl⟩ stagewiseLibrary_outputHasFixedImageType
  have hf0 : SimpleElastix.DualExecuteInternal.setup stagewiseLibrary uint8_2D uint8_2D
      sampleState 2 = some (.ok (sampleState.configuredFilter stagewiseLibrary uint8_2D
        uint8_2D)) := rfl
  rw [hf0] at hf
  cases hf
  obtain ⟨result, final, hrun, hdesc, _, hmaps⟩ :=
    h connectedOutput { parameterMaps := [translationMap ++ [("TransformParameters", ["0", "0"])]] }
      rfl rfl
  exact ⟨result, final, hrun, hdesc, hmaps⟩

/-- C8. A failure raised by the registration filter, while it produces its output or
while it produces its transform parameter object, leaves `DualExecuteInternal` as that
same exception: the outcome of the call is the failure `e` itself and no image. -/
theorem C8_filter_failure_propagates_unchanged (lib : ElastixLibrary)
    (TFixedImage TMovingImage : TypeDescriptor) (self : SimpleElastix) (fuel : Nat)
    (hfit : self.countersFit) (hfuel : self.longest < fuel) :
    ∃ f, SimpleElastix.DualExecuteInternal.setup lib TFixedImage TMovingImage self fuel
          = some (.ok f) ∧
      (∀ e, lib.GetOutput f = .error e →
        (SimpleElastix.DualExecuteInternal lib TFixedImage TMovingImage self fuel).map Prod.fst
          = some (.error e)) ∧
      (∀ output e, lib.GetOutput f = .ok output →
        lib.GetTransformParameterObject f = .error e →
        (SimpleElastix.DualExecuteInternal lib TFixedImage TMovingImage self fuel).map Prod.fst
          = some (.error e)) := by
  refine ⟨_, setup_eq lib TFixedImage TMovingImage self fuel hfit hfuel, ?_, ?_⟩
  · intro e hout
    rw [DualExecuteInternal_eq_run lib TFixedImage TMovingImage self fuel hfit hfuel]
    simp [SimpleElastix.DualExecuteInternal.run, hout]
  · intro output e hout htp
    rw [DualExecuteInternal_eq_run lib TFixedImage TMovingImage self fuel hfit hfuel]
    simp [SimpleElastix.DualExecuteInternal.run, hout, htp]

/-- C8, evaluated: with a library whose registration fails, the call fails with that very
exception. -/
theorem C8_filter_failure_propagates_unchanged_witness :
    sampleState.countersFit ∧ sampleState.longest < 2 ∧
    (SimpleElastix.DualExecuteInternal failingLibrary uint8_2D uint8_2D sampleState 2).map
      Prod.fst = some (.error registrationFailure) := by
  refine ⟨by decide, by decide, ?_⟩
  obtain ⟨f, _, h, _⟩ := C8_filter_failure_propagates_unchanged failingLibrary uint8_2D
    uint8_2D sampleState 2 (by decide) (by decide)
  exact h registrationFailure rfl

/-- C10, evaluated at the failing input: the output is obtained and the retrieval of the
transform parameter object then fails. The call fails with that exception, and the object
is left with `m_ResultImage` overwritten by the image wrapped around the filter output,
which is still connected to the filter and has not been made unique;
`m_TransformParameterMapVector` keeps its earlier value. -/
theorem C10_failure_leaves_connected_result :
    SimpleElastix.DualExecuteInternal lateFailingLibrary uint8_2D uint8_2D sampleState 2
      = some (.error registrationFailure,
          { sampleState with m_ResultImage := Image.mk connectedOutput }) ∧
    Image.mk connectedOutput ≠ sampleState.m_ResultImage ∧
    (Image.mk connectedOutput).itkBase.source = some 1 ∧
    Image.mk connectedOutput ≠ (Image.mk connectedOutput).MakeUnique := by
  refine ⟨rfl, by decide, rfl, by decide⟩

/-! ## The claims about the dual dispatcher -/

/-- A collection that passes the dispatcher check shares one descriptor, and so does each
part of it. -/
theorem sharesOneDescriptor_of_all (d : TypeDescriptor) (l : List Image)
    (h : (l.all fun x => decide (x.describe = d)) = true) : sharesOneDescriptor l := by
  refine ⟨d, fun x hx => ?_⟩
  rw [List.all_eq_true] at h
  simpa using h x hx

/-- C4. An invocation in which the fixed collection, the moving collection or one of the
mask collections does not share one type descriptor fails with `HeterogeneousCollection`
before dispatch, whatever the registry holds: the registry is neither consulted nor is a
callable invoked, so no image is cast or added to a registration filter. -/
theorem C4_heterogeneous_collection_rejected {ρ : Type} (registry : DispatchRegistry ρ)
    (input : RegistrationInput)
    (h : ¬ sharesOneDescriptor input.fixedImages ∨ ¬ sharesOneDescriptor input.movingImages ∨
      ¬ sharesOneDescriptor input.fixedMasks ∨ ¬ sharesOneDescriptor input.movingMasks) :
    invokePair registry input = ([], .error .HeterogeneousCollection) := by
  unfold invokePair
  by_cases hf : ((input.fixedImages ++ input.fixedMasks).all
      fun x => decide (x.describe = input.fixedImage.describe)) = true
  · by_cases hm : ((input.movingImages ++ input.movingMasks).all
        fun x => decide (x.describe = input.movingImage.describe)) = true
    · exfalso
      rw [List.all_append, Bool.and_eq_true] at hf hm
      rcases h with h | h | h | h
      · exact h (sharesOneDescriptor_of_all _ _ hf.1)
      · exact h (sharesOneDescriptor_of_all _ _ hm.1)
      · exact h (sharesOneDescriptor_of_all _ _ hf.2)
      · exact h (sharesOneDescriptor_of_all _ _ hm.2)
    · simp [hm]
  · simp [hf]

/-- C4, evaluated on the scenario of the specification: a fixed collection of one
(UInt8, 2) and one (Float32, 2) image is rejected although the registry binds a callable
to every pair. -/
theorem C4_heterogeneous_collection_rejected_witness :
    ¬ sharesOneDescriptor mixedInput.fixedImages ∧
    invokePair permissiveRegistry mixedInput = ([], .error .HeterogeneousCollection) := by
  have hmixed : ¬ sharesOneDescriptor mixedInput.fixedImages := by
    rintro ⟨d, hd⟩
    have h1 := hd sampleImage (by simp [mixedInput, RegistrationInput.fixedImages, pairInput])
    have h2 := hd floatImage (by simp [mixedInput, RegistrationInput.fixedImages, pairInput])
    rw [← h2] at h1
    exact absurd h1 (by decide)
  exact ⟨hmixed, C4_heterogeneous_collection_rejected permissiveRegistry mixedInput
    (Or.inl hmixed)⟩

/-- C5. When every fixed image and mask has the fixed type descriptor, every moving image
and mask has the moving type descriptor, and the two dimensions differ, the invocation
fails with `IncompatibleDimension` whatever the registry holds: no registry lookup takes
place and no callable is invoked for the pair. -/
theorem C5_incompatible_dimension_before_lookup {ρ : Type} (registry : DispatchRegistry ρ)
    (input : RegistrationInput)
    (hfixed : ∀ x ∈ input.fixedImages ++ input.fixedMasks,
      x.describe = input.fixedImage.describe)
    (hmoving : ∀ x ∈ input.movingImages ++ input.movingMasks,
      x.describe = input.movingImage.describe)
    (hdim : input.fixedImage.describe.dimension ≠ input.movingImage.describe.dimension) :
    invokePair registry input = ([], .error .IncompatibleDimension) := by
  have hf : ((input.fixedImages ++ input.fixedMasks).all
      fun x => decide (x.describe = input.fixedImage.describe)) = true := by
    rw [List.all_eq_true]
    intro x hx
    simpa using hfixed x hx
  have hm : ((input.movingImages ++ input.movingMasks).all
      fun x => decide (x.describe = input.movingImage.describe)) = true := by
    rw [List.all_eq_true]
    intro x hx
    simpa using hmoving x hx
  unfold invokePair
  simp [hf, hm, hdim]

/-- C5, evaluated: a (UInt8, 2) fixed image with a (UInt8, 3) moving image is rejected
although the registry binds a callable to every pair, also to pairs of unequal dimension. -/
theorem C5_incompatible_dimension_before_lookup_witness :
    sampleImage.describe.dimension ≠ volumeImage.describe.dimension ∧
    invokePair permissiveRegistry (pairInput sampleImage volumeImage)
      = ([], .error .IncompatibleDimension) :=
  ⟨by decide, C5_incompatible_dimension_before_lookup permissiveRegistry
    (pairInput sampleImage volumeImage)
    (by simp [pairInput, RegistrationInput.fixedImages])
    (by simp [pairInput, RegistrationInput.movingImages])
    (by decide)⟩

/-! ## The claims about the import interface -/

/-- Every declared procedural import function has the same default arguments: a spacing
of three entries 1.0, an origin of three entries 0.0, an empty direction and one component
per pixel. -/
theorem declaredImportAs_defaults (f : ImportFunction) (hf : f ∈ declaredImportAs) :
    f.defaultSpacing = List.replicate 3 1 ∧ f.defaultOrigin = List.replicate 3 0 ∧
      f.defaultDirection = [] ∧ f.defaultNumberOfComponents = 1 := by
  simp only [declaredImportAs, List.mem_cons, List.mem_singleton, List.not_mem_nil,
    or_false] at hf
  rcases hf with rfl | rfl | rfl | rfl | rfl | rfl | rfl | rfl <;>
    exact ⟨rfl, rfl, rfl, rfl⟩

/-- An import that leaves everything after `size` at the defaults of a declared function,
written out: it is rejected for a null buffer, for an empty size or one with a zero entry
and for a dimension other than 2 and 3, and otherwise constructs the image with spacing
1.0 and origin 0.0 on every axis. -/
theorem invoke_upToSize (f : ImportFunction) (hf : f ∈ declaredImportAs)
    (pixels : List Int) (size : List Nat) :
    f.invoke (.upToSize (some pixels) size) =
      if size.map (· % 2 ^ 32) = [] ∨ 0 ∈ size.map (· % 2 ^ 32) then
        .error .InvalidConstructionArguments
      else if size.length ≠ 2 ∧ size.length ≠ 3 then
        .error (.UnsupportedType (.scalar f.kind) size.length)
      else
        .ok
          { descriptor := { elementKind := .scalar f.kind, dimension := size.length }
            size := size.map (· % 2 ^ 32)
            spacing := List.replicate size.length 1
            origin := List.replicate size.length 0
            direction := identityDirection size.length
            pixels := pixels } := by
  obtain ⟨h1, h2, h3, h4⟩ := declaredImportAs_defaults f hf
  simp only [ImportFunction.invoke, ImportFunction.arguments, importImage, h1, h2, h3, h4,
    List.length_map, List.length_replicate, List.take_replicate]
  by_cases hbad : size.map (· % 2 ^ 32) = [] ∨ 0 ∈ size.map (· % 2 ^ 32)
  · simp only [hbad, if_true]
  · simp only [hbad, if_false]
    by_cases hdim : size.length ≠ 2 ∧ size.length ≠ 3
    · simp [hdim]
    · simp only [hdim, if_false]
      have hlen : size.length = 2 ∨ size.length = 3 := by omega
      rcases hlen with hlen | hlen <;> simp [hlen]

/-- C6. For every declared procedural import function and every size, of any length D,
an import with spacing and origin left at their defaults that constructs an image gives it
the element kind of the function, the dimension D, the spacing 1.0 per axis and the origin
0.0 per axis, sequences of length D; and the import does construct an image whenever the
buffer is not null, every entry of the size is positive and D is 2 or 3. -/
theorem C6_default_spacing_and_origin_per_axis (f : ImportFunction)
    (hf : f ∈ declaredImportAs) (buffer : Option (List Int)) (size : List Nat) :
    (∀ image, f.invoke (.upToSize buffer size) = .ok image →
      image.descriptor = { elementKind := .scalar f.kind, dimension := size.length } ∧
      image.spacing = List.replicate size.length 1 ∧
      image.origin = List.replicate size.length 0) ∧
    (buffer ≠ none → (∀ n ∈ size, 0 < n % 2 ^ 32) → (size.length = 2 ∨ size.length = 3) →
      ∃ image, f.invoke (.upToSize buffer size) = .ok image) := by
  constructor
  · intro image h
    cases buffer with
    | none => simp [ImportFunction.invoke, ImportFunction.arguments, importImage] at h
    | some pixels =>
      rw [invoke_upToSize f hf pixels size] at h
      split_ifs at h
      cases h
      exact ⟨rfl, rfl, rfl⟩
  · intro hbuffer hpos hdim
    cases buffer with
    | none => exact absurd rfl hbuffer
    | some pixels =>
      rw [invoke_upToSize f hf pixels size]
      have hne : size ≠ [] := by
        intro h
        rw [h] at hdim
        simp at hdim
      have hgood : ¬ (size.map (· % 2 ^ 32) = [] ∨ 0 ∈ size.map (· % 2 ^ 32)) := by
        rintro (h | h)
        · exact hne (List.map_eq_nil_iff.mp h)
        · obtain ⟨n, hn, hzero⟩ := List.mem_map.mp h
          have := hpos n hn
          omega
      have hdim2 : ¬ (size.length ≠ 2 ∧ size.length ≠ 3) := by omega
      rw [if_neg hgood, if_neg hdim2]
      exact ⟨_, rfl⟩

/-- C6, evaluated on the scenario of the specification: `ImportAsUInt8` with
`size = [4,4]` and everything else at its default constructs a (UInt8, 2) image with
spacing `[1.0, 1.0]` and origin `[0.0, 0.0]`. -/
theorem C6_default_spacing_and_origin_per_axis_witness :
    ImportAsUInt8 ∈ declaredImportAs ∧
    ∃ image, ImportAsUInt8.invoke (.upToSize (some sampleBuffer) [4, 4]) = .ok image ∧
      image.descriptor = uint8_2D ∧ image.spacing = [1, 1] ∧ image.origin = [0, 0] := by
  have hmem : ImportAsUInt8 ∈ declaredImportAs := by simp [declaredImportAs]
  obtain ⟨hall, hsome⟩ := C6_default_spacing_and_origin_per_axis ImportAsUInt8 hmem
    (some sampleBuffer) [4, 4]
  obtain ⟨image, himage⟩ := hsome (by simp) (by decide) (by decide)
  obtain ⟨h1, h2, h3⟩ := hall image himage
  exact ⟨hmem, image, himage, h1, h2, h3⟩

/-- C9, evaluated at the failing kinds: the class documentation names `ImportAsInt64` and
`ImportAsUInt64` among the procedural interfaces, yet the header declares neither a
procedural function nor a `SetBufferAs...` method for either kind; these two are the only
documented kinds without them. -/
theorem C9_no_64_bit_integer_import :
    ScalarKind.Int64 ∈ documentedImportAs ∧ ScalarKind.UInt64 ∈ documentedImportAs ∧
    ScalarKind.Int64 ∉ declaredImportAs.map ImportFunction.kind ∧
    ScalarKind.UInt64 ∉ declaredImportAs.map ImportFunction.kind ∧
    ScalarKind.Int64 ∉ declaredSetBufferAs ∧ ScalarKind.UInt64 ∉ declaredSetBufferAs ∧
    (documentedImportAs.filter fun k => decide (k ∉ declaredImportAs.map ImportFunction.kind))
      = [ScalarKind.Int64, ScalarKind.UInt64] ∧
    (documentedImportAs.filter fun k => decide (k ∉ declaredSetBufferAs))
      = [ScalarKind.Int64, ScalarKind.UInt64] := by
  decide

end itk.simple
